import Mathlib

/-!
# Verification of `submit_assignment.py` (canvas-drawer)

Shallow embedding of the single source file `src/submit_assignment.py`.

* YAML documents (as produced by `yaml.load`) are modelled by the inductive
  type `Yaml` (strings, integers, lists and string-keyed mappings, which is
  the shape include files use).
* The filesystem is a parameter `FS`: directory test (`os.path.isdir`),
  file test (`os.path.isfile`), parsed file content (`open` + `yaml.load`)
  and glob expansion (`glob.glob`).  `joinPath` models `os.path.join`.
* Raised exceptions become the `PyError` type, one constructor per `raise`
  site, carrying the data interpolated into the message.
* Network activity is modelled as a trace of `NetEvent`s; the remote
  uploader (`canvasapi.upload.Uploader(...).start()`) is an oracle
  `UploadOracle` mapping (upload url, path) to the `(success, response)`
  pair it returns, with the response modelled by its `"id"` field, the only
  field the program reads.  The `ConfigReader` embedding performs no
  network events at all, mirroring the source, where the reader only
  touches the filesystem.
-/

/-- A parsed YAML value as used by the include files: `yaml.load` output.
Mapping keys are strings (the only key shape the program uses); a mapping
is an association list with the first binding of a key the one `entry[k]`
returns. -/
inductive Yaml where
  | str (s : String)
  | int (n : Int)
  | list (xs : List Yaml)
  | map (kvs : List (String × Yaml))

/-- Is this YAML value a Python `str`?  (`type(entry) == str`). -/
def Yaml.isStr : Yaml → Bool
  | .str _ => true
  | _ => false

/-- One constructor per `raise` site of `submit_assignment.py`, carrying the
data that the source interpolates into the exception message. -/
inductive PyError where
  /-- `ValueError("'path' ({}) must be a directory.")` in `ConfigReader.read`. -/
  | notADirectory (path : String)
  /-- `FileNotFoundError("{} does not exist")` in `ConfigReader.read`. -/
  | fileNotFound (path : String)
  /-- `ValueError("provided configuration file is missing required keys: {}")`
  in `ConfigReader.__validate_config`; carries `bad_keys`. -/
  | missingKeys (keys : List String)
  /-- `ValueError("unexpected type detected in file list")`. -/
  | invalidFileListEntry
  /-- `ValueError("unexpected type detected in zip file list")`. -/
  | invalidZipListEntry
  /-- `IOError("Failed to upload {}.")` in `CanvasAssignment.submit`. -/
  | uploadFailed (path : String)
  /-- `ValueError("'path' must be a valid path to a file.")` in
  `upload_file_to_assignment`. -/
  | pathNotAFile (path : String)
  /-- Python `TypeError` from iterating a non-iterable value. -/
  | typeError
  /-- Python `AttributeError` from `.keys()` on a non-dict. -/
  | attributeError
  /-- Python `KeyError` from indexing a dict at an absent key. -/
  | keyError (k : String)
deriving DecidableEq

/-- Python iteration `for entry in x` over a YAML value: lists yield their
elements, strings their characters (as one-character strings), dicts their
keys; integers are not iterable (`TypeError`). -/
def pyIter : Yaml → Except PyError (List Yaml)
  | .list xs => .ok xs
  | .str s => .ok (s.data.map (fun c => .str (String.singleton c)))
  | .map kvs => .ok (kvs.map (fun kv => .str kv.1))
  | .int _ => .error .typeError

/-- The filesystem the program runs against: `os.path.isdir`,
`os.path.isfile`, parsed file content (`open(...).read()` piped through
`yaml.load`), and `glob.glob`. -/
structure FS where
  isDir : String → Bool
  isFile : String → Bool
  content : String → Yaml
  globMatch : String → List String

/-- `os.path.join(a, b)` (posix): an absolute second component (leading
`'/'`) replaces the first; otherwise the components are joined with exactly
one separator (none added when the first is empty or already ends in
`'/'`). -/
def joinPath (a b : String) : String :=
  if b.data.head? = some '/' then b
  else if a = "" ∨ a.data.getLast? = some '/' then a ++ b
  else a ++ "/" ++ b

instance {ε α : Type} [DecidableEq ε] [DecidableEq α] :
    DecidableEq (Except ε α)
  | .ok a, .ok b => decidable_of_iff (a = b) ⟨fun h => h ▸ rfl, Except.ok.inj⟩
  | .ok _, .error _ => .isFalse (fun hc => Except.noConfusion hc)
  | .error _, .ok _ => .isFalse (fun hc => Except.noConfusion hc)
  | .error e, .error f =>
    decidable_of_iff (e = f) ⟨fun h => h ▸ rfl, Except.error.inj⟩

/-- The `ConfigOptions` enum: the five required top-level keys. -/
inductive ConfigOptions where
  | AID
  | CID
  | URL
  | FILES
  | API_KEY
deriving DecidableEq

/-- `ConfigOptions` member values. -/
def ConfigOptions.value : ConfigOptions → String
  | .AID => "assignment_id"
  | .CID => "course_id"
  | .URL => "canvas_url"
  | .FILES => "files"
  | .API_KEY => "api_key"

/-- `list(ConfigOptions)`: enum members in declaration order. -/
def ConfigOptions.all : List ConfigOptions :=
  [.AID, .CID, .URL, .FILES, .API_KEY]

/-- `FIRST_LEVEL_KEYS = [opt.value for opt in list(ConfigOptions)]`. -/
def FIRST_LEVEL_KEYS : List String :=
  ConfigOptions.all.map ConfigOptions.value

/-- A `ConfigReader(path, include_file)` instance.  The source defaults
`include_file` to `".canvas-include.yml"`. -/
structure ConfigReader where
  path : String
  include_file : String

/-- `ConfigReader.__validate_config` on the parsed mapping: collect, in
`FIRST_LEVEL_KEYS` order, the required keys absent from `config.keys()`;
raise `ValueError` listing them when any are missing. -/
def ConfigReader.validate_config (kvs : List (String × Yaml)) :
    Except PyError Unit :=
  let bad_keys := FIRST_LEVEL_KEYS.filter (fun key => ! (kvs.map Prod.fst).contains key)
  if bad_keys = [] then .ok () else .error (.missingKeys bad_keys)

/-- The first loop of `ConfigReader._get_file_list`: iterate the file-list
entries carrying `globs_to_zip` and `file_list`.  A dict containing the key
`"zip"` *replaces* `globs_to_zip` with `entry["zip"]`; a string entry is
glob-expanded against the base directory and extends `file_list`; anything
else raises `ValueError`. -/
def ConfigReader.filesLoop (fs : FS) (path : String) :
    List Yaml → Yaml → List String → Except PyError (Yaml × List String)
  | [], globs_to_zip, file_list => .ok (globs_to_zip, file_list)
  | entry :: rest, globs_to_zip, file_list =>
    match entry with
    | .map kvs =>
      match kvs.lookup "zip" with
      | some v => ConfigReader.filesLoop fs path rest v file_list
      | none => .error .invalidFileListEntry
    | .str s =>
      ConfigReader.filesLoop fs path rest globs_to_zip
        (file_list ++ fs.globMatch (joinPath path s))
    | .int _ => .error .invalidFileListEntry
    | .list _ => .error .invalidFileListEntry

/-- The second loop of `ConfigReader._get_file_list`: expand each string
entry of `globs_to_zip` into `zip_file_list`; a non-string raises
`ValueError`. -/
def ConfigReader.zipLoop (fs : FS) (path : String) :
    List Yaml → List String → Except PyError (List String)
  | [], zip_file_list => .ok zip_file_list
  | entry :: rest, zip_file_list =>
    match entry with
    | .str s =>
      ConfigReader.zipLoop fs path rest
        (zip_file_list ++ fs.globMatch (joinPath path s))
    | _ => .error .invalidZipListEntry

/-- `ConfigReader._get_file_list`, given the `files` value of the
configuration: run the entry loop starting from `globs_to_zip = []`, then
the zip loop over the final `globs_to_zip`, and return
`(file_list, zip_file_list)`. -/
def ConfigReader.get_file_list (fs : FS) (path : String) (files : Yaml) :
    Except PyError (List String × List String) :=
  match pyIter files with
  | .error e => .error e
  | .ok entries =>
    match ConfigReader.filesLoop fs path entries (.list []) [] with
    | .error e => .error e
    | .ok (globs_to_zip, file_list) =>
      match pyIter globs_to_zip with
      | .error e => .error e
      | .ok zentries =>
        match ConfigReader.zipLoop fs path zentries [] with
        | .error e => .error e
        | .ok zip_file_list => .ok (file_list, zip_file_list)

/-- `ConfigReader.read`: directory check, include-file existence check,
parse, validate, resolve file lists; returns
`(config, file_list, zip_file_list)`. -/
def ConfigReader.read (r : ConfigReader) (fs : FS) :
    Except PyError (Yaml × List String × List String) :=
  if fs.isDir r.path = false then
    .error (.notADirectory r.path)
  else
    let include_file_path := joinPath r.path r.include_file
    if fs.isFile include_file_path = false then
      .error (.fileNotFound include_file_path)
    else
      match fs.content include_file_path with
      | .map kvs =>
        match ConfigReader.validate_config kvs with
        | .error e => .error e
        | .ok () =>
          match kvs.lookup "files" with
          | none => .error (.keyError "files")
          | some files =>
            match ConfigReader.get_file_list fs r.path files with
            | .error e => .error e
            | .ok (fl, zl) => .ok (.map kvs, fl, zl)
      | _ => .error .attributeError

/-- The dict `{"file_ids": ..., "submission_type": ...}` built by
`CanvasAssignment.submit`, with file identifiers modelled by the `"id"`
field of each upload response. -/
structure Submission where
  file_ids : List Nat
  submission_type : String
deriving DecidableEq

/-- One network call issued by the submitter. -/
inductive NetEvent where
  /-- `Uploader(requester, upload_url, path).start()`. -/
  | uploadCall (url : String) (path : String)
  /-- `self.get_assignment()` (course/assignment lookup). -/
  | getAssignmentCall (course_id : String) (assignment_id : String)
  /-- `assignment.submit(submission)`. -/
  | submitCall (s : Submission)
deriving DecidableEq

/-- Is this event the submission call? -/
def NetEvent.isSubmit : NetEvent → Bool
  | .submitCall _ => true
  | _ => false

/-- The remote uploader, as an oracle: for an upload URL and a path,
`Uploader(...).start()` returns `(success, response)`; the response is
modelled by its `"id"` field. -/
structure UploadOracle where
  res : String → String → Bool × Nat

/-- The upload URL format string of `upload_file_to_assignment`, applied to
the course, assignment and user identifiers (rendered as strings). -/
def upload_url (course_id assignment_id user_id : String) : String :=
  "/api/v1/courses/" ++ course_id ++ "/assignments/" ++ assignment_id
    ++ "/submissions/" ++ user_id ++ "/files"

/-- `upload_file_to_assignment`: raise `ValueError` when `path` is not an
existing regular file, BEFORE any network call; otherwise format the upload
URL, issue the upload (one `uploadCall` event) and return the oracle's
`(success, response id)` pair. -/
def upload_file_to_assignment (fs : FS) (o : UploadOracle)
    (course_id assn_id user_id path : String) :
    Except PyError (List NetEvent × Bool × Nat) :=
  if fs.isFile path = false then .error (.pathNotAFile path)
  else
    let url := upload_url course_id assn_id user_id
    .ok ([.uploadCall url path], o.res url path)

/-- A constructed `CanvasAssignment`: resolved file lists plus the
configuration identifiers (rendered as strings) and the user id resolved at
construction time. -/
structure CanvasAssignment where
  file_list : List String
  zip_file_list : List String
  assignment_id : String
  course_id : String
  user_id : String

/-- The upload loop of `CanvasAssignment.submit`: for each path in order,
call `upload_file_to_assignment`; on a `(False, _)` result raise
`IOError("Failed to upload {path}.")`; on success append `response["id"]`
to `file_ids`.  Returns the event trace so far together with the outcome. -/
def CanvasAssignment.uploadLoop (a : CanvasAssignment) (fs : FS)
    (o : UploadOracle) :
    List String → List Nat → List NetEvent →
      List NetEvent × Except PyError (List Nat)
  | [], file_ids, tr => (tr, .ok file_ids)
  | path :: rest, file_ids, tr =>
    match upload_file_to_assignment fs o a.course_id a.assignment_id
        a.user_id path with
    | .error e => (tr, .error e)
    | .ok (evs, res) =>
      if res.1 = false then (tr ++ evs, .error (.uploadFailed path))
      else a.uploadLoop fs o rest (file_ids ++ [res.2]) (tr ++ evs)

/-- `CanvasAssignment.submit`: run the upload loop over `self.file_list`;
when it completes, build `{file_ids, submission_type: "online_upload"}` and
issue one submission call via `self.get_assignment().submit(...)`.  The
server's submission record is modelled by echoing the submitted payload. -/
def CanvasAssignment.submit (a : CanvasAssignment) (fs : FS)
    (o : UploadOracle) : List NetEvent × Except PyError Submission :=
  match a.uploadLoop fs o a.file_list [] [] with
  | (tr, .error e) => (tr, .error e)
  | (tr, .ok file_ids) =>
    let submission : Submission :=
      { file_ids := file_ids, submission_type := "online_upload" }
    (tr ++ [.getAssignmentCall a.course_id a.assignment_id,
            .submitCall submission],
     .ok submission)

/-- A file-list entry that is neither a Python `str` nor a dict containing
the key `"zip"` (e.g. an integer, a list, or a dict without `"zip"`). -/
def entryInvalid : Yaml → Bool
  | .str _ => false
  | .map kvs => (kvs.lookup "zip").isNone
  | .int _ => true
  | .list _ => true


/-! ## Concrete fixtures used by witness instantiations -/

/-- A filesystem on which every path is a directory and a regular file and
every glob is empty; file contents parse to the YAML integer 0. -/
def fsAll : FS :=
  { isDir := fun _ => true, isFile := fun _ => true,
    content := fun _ => .int 0, globMatch := fun _ => [] }

/-- An oracle whose uploads always succeed, answering id 7 for `"f1"` and
id 9 for everything else. -/
def oracleOk : UploadOracle :=
  { res := fun _ q => (true, if q = "f1" then 7 else 9) }

/-- An oracle that succeeds exactly on path `"f1"`. -/
def oracleFailF2 : UploadOracle :=
  { res := fun _ q => (q == "f1", 7) }

/-- An assignment with two resolved files. -/
def asgn1 : CanvasAssignment :=
  { file_list := ["f1", "f2"], zip_file_list := [],
    assignment_id := "10", course_id := "20", user_id := "30" }

/-- An assignment whose resolved direct-upload list is empty. -/
def asgnEmpty : CanvasAssignment :=
  { file_list := [], zip_file_list := [],
    assignment_id := "10", course_id := "20", user_id := "30" }

/-- A mapping carrying all five required keys. -/
def kvsFull : List (String × Yaml) :=
  [("assignment_id", .int 1), ("course_id", .int 2), ("canvas_url", .str "u"),
   ("files", .list []), ("api_key", .str "k")]

/-- A filesystem with no directories and no files. -/
def fsNoDir : FS :=
  { isDir := fun _ => false, isFile := fun _ => false,
    content := fun _ => .int 0, globMatch := fun _ => [] }

/-- A filesystem where every path is a directory but no file exists. -/
def fsDirNoFile : FS :=
  { isDir := fun _ => true, isFile := fun _ => false,
    content := fun _ => .int 0, globMatch := fun _ => [] }

/-- A reader pointed at directory `"hw1"` with the default include file. -/
def rdr : ConfigReader :=
  { path := "hw1", include_file := ".canvas-include.yml" }

/-- The spec's example filesystem: `a/1.txt`, `a/2.txt`, `b/x.py` under
directory `dir`. -/
def fsEx : FS :=
  { isDir := fun _ => true, isFile := fun _ => true,
    content := fun _ => .int 0,
    globMatch := fun pat =>
      if pat = "dir/a/*.txt" then ["dir/a/1.txt", "dir/a/2.txt"]
      else if pat = "dir/b/*.py" then ["dir/b/x.py"] else [] }

/-- A filesystem on which only `"f1"` is a regular file. -/
def fsOnlyF1 : FS :=
  { isDir := fun _ => true, isFile := fun q => q == "f1",
    content := fun _ => .int 0, globMatch := fun _ => [] }

/-! ## Helper lemmas about the upload loop -/

/-- When every path in `l` is a regular file whose upload succeeds, the
upload loop issues one upload call per path, in order, and collects the
returned identifiers in order. -/
theorem uploadLoop_all_success (a : CanvasAssignment) (fs : FS)
    (o : UploadOracle) (l : List String) (ids : List Nat) (tr : List NetEvent)
    (h : ∀ p ∈ l, fs.isFile p = true ∧
      (o.res (upload_url a.course_id a.assignment_id a.user_id) p).1 = true) :
    a.uploadLoop fs o l ids tr =
      (tr ++ l.map (fun p =>
        NetEvent.uploadCall (upload_url a.course_id a.assignment_id a.user_id) p),
       .ok (ids ++ l.map (fun p =>
        (o.res (upload_url a.course_id a.assignment_id a.user_id) p).2))) := by
  induction l generalizing ids tr with
  | nil => simp [CanvasAssignment.uploadLoop]
  | cons p rest ih =>
    obtain ⟨hf, hs⟩ := h p (List.mem_cons_self _ _)
    rw [CanvasAssignment.uploadLoop]
    simp only [upload_file_to_assignment, hf]
    simp only [Bool.true_eq_false, if_false, hs,
      ih _ _ (fun q hq => h q (List.mem_cons_of_mem _ hq)),
      List.map_cons, List.append_assoc, List.singleton_append, List.cons_append,
      List.nil_append]

/-- When every path in `l₁` uploads successfully, `p` is a regular file and
`p`'s upload reports failure, the loop issues the uploads of `l₁` and of
`p` (in order), issues nothing further, and raises
`IOError("Failed to upload {p}.")`. -/
theorem uploadLoop_first_failure (a : CanvasAssignment) (fs : FS)
    (o : UploadOracle) (l₁ : List String) (p : String) (l₂ : List String)
    (ids : List Nat) (tr : List NetEvent)
    (h1 : ∀ q ∈ l₁, fs.isFile q = true ∧
      (o.res (upload_url a.course_id a.assignment_id a.user_id) q).1 = true)
    (h2 : fs.isFile p = true)
    (h3 : (o.res (upload_url a.course_id a.assignment_id a.user_id) p).1 = false) :
    a.uploadLoop fs o (l₁ ++ p :: l₂) ids tr =
      (tr ++ (l₁ ++ [p]).map (fun q =>
        NetEvent.uploadCall (upload_url a.course_id a.assignment_id a.user_id) q),
       .error (.uploadFailed p)) := by
  induction l₁ generalizing ids tr with
  | nil =>
    rw [List.nil_append, CanvasAssignment.uploadLoop]
    simp only [upload_file_to_assignment, h2]
    simp only [Bool.true_eq_false, if_false, h3, if_true]
    simp
  | cons q rest ih =>
    obtain ⟨hf, hs⟩ := h1 q (List.mem_cons_self _ _)
    rw [List.cons_append, CanvasAssignment.uploadLoop]
    simp only [upload_file_to_assignment, hf]
    simp only [Bool.true_eq_false, if_false, hs,
      ih _ _ (fun x hx => h1 x (List.mem_cons_of_mem _ hx))]
    simp

/-- When every path in `l₁` uploads successfully and `p` is not a regular
file, the loop issues only the uploads of `l₁` and raises
`ValueError("'path' must be a valid path to a file.")` without issuing an
upload call for `p`. -/
theorem uploadLoop_missing_file (a : CanvasAssignment) (fs : FS)
    (o : UploadOracle) (l₁ : List String) (p : String) (l₂ : List String)
    (ids : List Nat) (tr : List NetEvent)
    (h1 : ∀ q ∈ l₁, fs.isFile q = true ∧
      (o.res (upload_url a.course_id a.assignment_id a.user_id) q).1 = true)
    (h2 : fs.isFile p = false) :
    a.uploadLoop fs o (l₁ ++ p :: l₂) ids tr =
      (tr ++ l₁.map (fun q =>
        NetEvent.uploadCall (upload_url a.course_id a.assignment_id a.user_id) q),
       .error (.pathNotAFile p)) := by
  induction l₁ generalizing ids tr with
  | nil =>
    rw [List.nil_append, CanvasAssignment.uploadLoop]
    simp only [upload_file_to_assignment, h2, if_true]
    simp
  | cons q rest ih =>
    obtain ⟨hf, hs⟩ := h1 q (List.mem_cons_self _ _)
    rw [List.cons_append, CanvasAssignment.uploadLoop]
    simp only [upload_file_to_assignment, hf]
    simp only [Bool.true_eq_false, if_false, hs,
      ih _ _ (fun x hx => h1 x (List.mem_cons_of_mem _ hx))]
    simp

/-! ## Helper lemmas about file-list resolution -/

/-- Entry loop over purely-string entries: `globs_to_zip` is untouched and
the glob expansions are appended to `file_list` in declared order. -/
theorem filesLoop_strings (fs : FS) (path : String) (strs : List String)
    (gz : Yaml) (fl : List String) :
    ConfigReader.filesLoop fs path (strs.map .str) gz fl =
      .ok (gz, fl ++ (strs.map (fun s => fs.globMatch (joinPath path s))).flatten) := by
  induction strs generalizing fl with
  | nil => simp [ConfigReader.filesLoop]
  | cons s rest ih => simp [ConfigReader.filesLoop, ih, List.append_assoc]

/-- The entry loop processes an appended list left to right. -/
theorem filesLoop_append (fs : FS) (path : String) (xs ys : List Yaml)
    (gz : Yaml) (fl : List String) :
    ConfigReader.filesLoop fs path (xs ++ ys) gz fl =
      match ConfigReader.filesLoop fs path xs gz fl with
      | .error e => .error e
      | .ok (gz2, fl2) => ConfigReader.filesLoop fs path ys gz2 fl2 := by
  induction xs generalizing gz fl with
  | nil => simp [ConfigReader.filesLoop]
  | cons e rest ih =>
    cases e with
    | str s => simp [ConfigReader.filesLoop, ih]
    | int n => simp [ConfigReader.filesLoop]
    | list l => simp [ConfigReader.filesLoop]
    | map kvs =>
      simp only [List.cons_append, ConfigReader.filesLoop]
      cases kvs.lookup "zip" with
      | none => simp
      | some v => simp [ih]

/-- A single zip-shaped entry replaces `globs_to_zip` with the value found
under the key `"zip"` and leaves `file_list` unchanged. -/
theorem filesLoop_zip_entry (fs : FS) (path : String)
    (kvs : List (String × Yaml)) (v gz : Yaml) (fl : List String)
    (h : kvs.lookup "zip" = some v) :
    ConfigReader.filesLoop fs path [.map kvs] gz fl = .ok (v, fl) := by
  simp [ConfigReader.filesLoop, h]

/-- If any entry is neither a string nor a dict containing `"zip"`, the
entry loop raises `ValueError("unexpected type detected in file list")`. -/
theorem filesLoop_invalid (fs : FS) (path : String) (entries : List Yaml)
    (gz : Yaml) (fl : List String)
    (h : ∃ e ∈ entries, entryInvalid e = true) :
    ConfigReader.filesLoop fs path entries gz fl =
      .error .invalidFileListEntry := by
  induction entries generalizing gz fl with
  | nil => simp at h
  | cons e rest ih =>
    obtain ⟨x, hx, hinv⟩ := h
    cases e with
    | str s =>
      rcases List.mem_cons.mp hx with hx1 | hx2
      · subst hx1; simp [entryInvalid] at hinv
      · simp [ConfigReader.filesLoop, ih _ _ ⟨x, hx2, hinv⟩]
    | int n => simp [ConfigReader.filesLoop]
    | list l => simp [ConfigReader.filesLoop]
    | map kvs =>
      cases hz : kvs.lookup "zip" with
      | none => simp [ConfigReader.filesLoop, hz]
      | some v =>
        rcases List.mem_cons.mp hx with hx1 | hx2
        · subst hx1; simp [entryInvalid, hz] at hinv
        · simp [ConfigReader.filesLoop, hz, ih _ _ ⟨x, hx2, hinv⟩]

/-- Zip loop over purely-string patterns: glob expansions appended in
order. -/
theorem zipLoop_strings (fs : FS) (path : String) (strs : List String)
    (acc : List String) :
    ConfigReader.zipLoop fs path (strs.map .str) acc =
      .ok (acc ++ (strs.map (fun s => fs.globMatch (joinPath path s))).flatten) := by
  induction strs generalizing acc with
  | nil => simp [ConfigReader.zipLoop]
  | cons s rest ih => simp [ConfigReader.zipLoop, ih, List.append_assoc]

/-- If any zip pattern is not a string, the zip loop raises
`ValueError("unexpected type detected in zip file list")`. -/
theorem zipLoop_invalid (fs : FS) (path : String) (zs : List Yaml)
    (acc : List String) (h : ∃ z ∈ zs, z.isStr = false) :
    ConfigReader.zipLoop fs path zs acc = .error .invalidZipListEntry := by
  induction zs generalizing acc with
  | nil => simp at h
  | cons z rest ih =>
    obtain ⟨x, hx, hinv⟩ := h
    cases z with
    | str s =>
      rcases List.mem_cons.mp hx with hx1 | hx2
      · subst hx1; simp [Yaml.isStr] at hinv
      · simp [ConfigReader.zipLoop, ih _ ⟨x, hx2, hinv⟩]
    | int n => simp [ConfigReader.zipLoop]
    | list l => simp [ConfigReader.zipLoop]
    | map kvs => simp [ConfigReader.zipLoop]

/-! ## Claims -/

/-- **C1.** For every run of `CanvasAssignment.submit()` in which every
per-file upload call reports success, exactly one submission call is issued
and its payload has `file_ids` equal to the list of identifiers returned by
the uploads, in the same order as the resolved file list, and
`submission_type` equal to `"online_upload"`. -/
theorem submit_all_uploads_succeed (fs : FS) (o : UploadOracle)
    (a : CanvasAssignment)
    (hfile : ∀ p ∈ a.file_list, fs.isFile p = true)
    (hsucc : ∀ p ∈ a.file_list,
      (o.res (upload_url a.course_id a.assignment_id a.user_id) p).1 = true) :
    (a.submit fs o).1.filter NetEvent.isSubmit =
      [NetEvent.submitCall
        { file_ids := a.file_list.map (fun p =>
            (o.res (upload_url a.course_id a.assignment_id a.user_id) p).2),
          submission_type := "online_upload" }] ∧
    (a.submit fs o).2 =
      .ok { file_ids := a.file_list.map (fun p =>
              (o.res (upload_url a.course_id a.assignment_id a.user_id) p).2),
            submission_type := "online_upload" } := by
  have h := uploadLoop_all_success a fs o a.file_list [] []
    (fun p hp => ⟨hfile p hp, hsucc p hp⟩)
  have key : a.submit fs o =
      (a.file_list.map (fun p =>
        NetEvent.uploadCall (upload_url a.course_id a.assignment_id a.user_id) p)
       ++ [.getAssignmentCall a.course_id a.assignment_id,
           .submitCall
            { file_ids := a.file_list.map (fun p =>
                (o.res (upload_url a.course_id a.assignment_id a.user_id) p).2),
              submission_type := "online_upload" }],
       .ok { file_ids := a.file_list.map (fun p =>
               (o.res (upload_url a.course_id a.assignment_id a.user_id) p).2),
             submission_type := "online_upload" }) := by
    unfold CanvasAssignment.submit
    rw [h]
    simp
  rw [key]
  refine ⟨?_, rfl⟩
  rw [List.filter_append]
  have hnil : (a.file_list.map (fun p =>
      NetEvent.uploadCall (upload_url a.course_id a.assignment_id a.user_id) p)).filter
        NetEvent.isSubmit = [] := by
    rw [List.filter_eq_nil_iff]
    intro e he
    obtain ⟨p, _, hp⟩ := List.mem_map.mp he
    subst hp
    simp [NetEvent.isSubmit]
  rw [hnil]
  simp [NetEvent.isSubmit]

/-- **C1 witness**: two files, both uploads succeed. -/
theorem submit_all_uploads_succeed_witness :
    (asgn1.submit fsAll oracleOk).1.filter NetEvent.isSubmit =
      [NetEvent.submitCall
        { file_ids := asgn1.file_list.map (fun p =>
            (oracleOk.res
              (upload_url asgn1.course_id asgn1.assignment_id asgn1.user_id) p).2),
          submission_type := "online_upload" }] ∧
    (asgn1.submit fsAll oracleOk).2 =
      .ok { file_ids := asgn1.file_list.map (fun p =>
              (oracleOk.res
                (upload_url asgn1.course_id asgn1.assignment_id asgn1.user_id) p).2),
            submission_type := "online_upload" } :=
  submit_all_uploads_succeed fsAll oracleOk asgn1 (by decide) (by decide)

/-- **C2.** For every run of `CanvasAssignment.submit()` on resolved files
`l₁ ++ p :: l₂` where `p`'s upload call is the first to report failure
(`K = l₁.length + 1`, 1-indexed), the issued calls are exactly the uploads
of `l₁` followed by the upload of `p` (so uploads `1..K-1` have been issued
in file-list order), no submission call is made, and
`IOError("Failed to upload {p}.")` is raised, naming the failing path. -/
theorem submit_first_failure_aborts (fs : FS) (o : UploadOracle)
    (a : CanvasAssignment) (l₁ : List String) (p : String) (l₂ : List String)
    (hfl : a.file_list = l₁ ++ p :: l₂)
    (h1 : ∀ q ∈ l₁, fs.isFile q = true ∧
      (o.res (upload_url a.course_id a.assignment_id a.user_id) q).1 = true)
    (h2 : fs.isFile p = true)
    (h3 : (o.res (upload_url a.course_id a.assignment_id a.user_id) p).1 = false) :
    (a.submit fs o).1 = (l₁ ++ [p]).map (fun q =>
      NetEvent.uploadCall (upload_url a.course_id a.assignment_id a.user_id) q) ∧
    (a.submit fs o).1.take l₁.length = l₁.map (fun q =>
      NetEvent.uploadCall (upload_url a.course_id a.assignment_id a.user_id) q) ∧
    (∀ e ∈ (a.submit fs o).1, e.isSubmit = false) ∧
    (a.submit fs o).2 = .error (.uploadFailed p) := by
  have h := uploadLoop_first_failure a fs o l₁ p l₂ [] [] h1 h2 h3
  have key : a.submit fs o =
      ((l₁ ++ [p]).map (fun q =>
        NetEvent.uploadCall (upload_url a.course_id a.assignment_id a.user_id) q),
       .error (.uploadFailed p)) := by
    unfold CanvasAssignment.submit
    rw [hfl, h]
    simp
  rw [key]
  refine ⟨rfl, ?_, ?_, rfl⟩
  · have : l₁.length = (l₁.map (fun q =>
        NetEvent.uploadCall (upload_url a.course_id a.assignment_id a.user_id) q)).length := by
      simp
    rw [List.map_append, this, List.take_left]
  · intro e he
    obtain ⟨q, _, hq⟩ := List.mem_map.mp he
    subst hq
    simp [NetEvent.isSubmit]

/-- **C2 witness**: files `["f1", "f2"]`, the second upload is the first to
fail. -/
theorem submit_first_failure_aborts_witness :
    (asgn1.submit fsAll oracleFailF2).1 = (["f1"] ++ ["f2"]).map (fun q =>
      NetEvent.uploadCall
        (upload_url asgn1.course_id asgn1.assignment_id asgn1.user_id) q) ∧
    (asgn1.submit fsAll oracleFailF2).1.take (["f1"] : List String).length =
      (["f1"] : List String).map (fun q =>
        NetEvent.uploadCall
          (upload_url asgn1.course_id asgn1.assignment_id asgn1.user_id) q) ∧
    (∀ e ∈ (asgn1.submit fsAll oracleFailF2).1, e.isSubmit = false) ∧
    (asgn1.submit fsAll oracleFailF2).2 = .error (.uploadFailed "f2") :=
  submit_first_failure_aborts fsAll oracleFailF2 asgn1 ["f1"] "f2" []
    (by decide) (by decide) (by decide) (by decide)

/-- **C3.** For every parsed configuration mapping, validation succeeds if
and only if all five required keys (`assignment_id`, `course_id`,
`canvas_url`, `files`, `api_key` — i.e. `FIRST_LEVEL_KEYS`) are present
among the mapping's keys; when any are absent it fails with a
`ValueError` whose `bad_keys` list contains exactly the missing required
keys (and nothing else), and `ConfigReader.read` propagates that error. -/
theorem validate_config_required_keys (kvs : List (String × Yaml)) :
    (ConfigReader.validate_config kvs = .ok () ↔
      ∀ k ∈ FIRST_LEVEL_KEYS, k ∈ kvs.map Prod.fst) ∧
    (∀ keys, ConfigReader.validate_config kvs = .error (.missingKeys keys) →
      keys ≠ [] ∧ ∀ k, k ∈ keys ↔ (k ∈ FIRST_LEVEL_KEYS ∧ ¬ k ∈ kvs.map Prod.fst)) ∧
    (∀ e, ConfigReader.validate_config kvs = .error e →
      ∃ keys, e = .missingKeys keys) ∧
    (∀ (r : ConfigReader) (fs : FS) (e : PyError),
      fs.isDir r.path = true →
      fs.isFile (joinPath r.path r.include_file) = true →
      fs.content (joinPath r.path r.include_file) = .map kvs →
      ConfigReader.validate_config kvs = .error e →
      r.read fs = .error e) := by
  have hmem : ∀ k, k ∈ FIRST_LEVEL_KEYS.filter
      (fun key => ! (kvs.map Prod.fst).contains key) ↔
      (k ∈ FIRST_LEVEL_KEYS ∧ ¬ k ∈ kvs.map Prod.fst) := by
    intro k
    simp [List.mem_filter]
  have hread : ∀ (r : ConfigReader) (fs : FS) (e : PyError),
      fs.isDir r.path = true →
      fs.isFile (joinPath r.path r.include_file) = true →
      fs.content (joinPath r.path r.include_file) = .map kvs →
      ConfigReader.validate_config kvs = .error e →
      r.read fs = .error e := by
    intro r fs e hd hf hc hv
    unfold ConfigReader.read
    simp [hd, hf, hc, hv]
  have hdef : ConfigReader.validate_config kvs =
      if FIRST_LEVEL_KEYS.filter
          (fun key => ! (kvs.map Prod.fst).contains key) = []
      then (.ok () : Except PyError Unit)
      else .error (.missingKeys (FIRST_LEVEL_KEYS.filter
        (fun key => ! (kvs.map Prod.fst).contains key))) := rfl
  by_cases hb : FIRST_LEVEL_KEYS.filter
      (fun key => ! (kvs.map Prod.fst).contains key) = []
  case pos =>
    have hok : ConfigReader.validate_config kvs = .ok () := by
      rw [hdef, if_pos hb]
    refine ⟨⟨fun _ k hk => ?_, fun _ => hok⟩, fun keys hkeys => ?_,
      fun e he => ?_, hread⟩
    · by_contra hnk
      have : k ∈ FIRST_LEVEL_KEYS.filter
          (fun key => ! (kvs.map Prod.fst).contains key) := (hmem k).mpr ⟨hk, hnk⟩
      rw [hb] at this
      simp at this
    · rw [hok] at hkeys
      simp at hkeys
    · rw [hok] at he
      simp at he
  case neg =>
    have herr : ConfigReader.validate_config kvs =
        .error (.missingKeys (FIRST_LEVEL_KEYS.filter
          (fun key => ! (kvs.map Prod.fst).contains key))) := by
      rw [hdef, if_neg hb]
    refine ⟨⟨fun hok => ?_, fun hall => ?_⟩, fun keys hkeys => ?_,
      fun e he => ?_, hread⟩
    · rw [herr] at hok
      simp at hok
    · exfalso
      apply hb
      rw [List.eq_nil_iff_forall_not_mem]
      intro k hkmem
      obtain ⟨hk1, hk2⟩ := (hmem k).mp hkmem
      exact hk2 (hall k hk1)
    · rw [herr] at hkeys
      simp only [Except.error.injEq, PyError.missingKeys.injEq] at hkeys
      subst hkeys
      exact ⟨hb, hmem⟩
    · rw [herr] at he
      simp only [Except.error.injEq] at he
      exact ⟨_, he.symm⟩

/-- **C3 witness**: a mapping with all five keys validates. -/
theorem validate_config_required_keys_witness :
    ConfigReader.validate_config kvsFull = .ok () :=
  (validate_config_required_keys kvsFull).1.mpr (by decide)

/-- **C7.** `ConfigReader.read()` fails with the not-a-directory
`ValueError` when the path is not a directory, and otherwise fails with
`FileNotFoundError` when the include file is absent from that directory;
both results hold for every file content, so the checks precede any
parsing. -/
theorem read_path_checks (fs1 fs2 : FS) (r : ConfigReader)
    (h1 : fs1.isDir r.path = false)
    (h2 : fs2.isDir r.path = true)
    (h3 : fs2.isFile (joinPath r.path r.include_file) = false) :
    r.read fs1 = .error (.notADirectory r.path) ∧
    r.read fs2 = .error (.fileNotFound (joinPath r.path r.include_file)) := by
  constructor
  · unfold ConfigReader.read
    simp [h1]
  · unfold ConfigReader.read
    simp [h2, h3]

/-- **C7 witness**: concrete missing directory and missing include file. -/
theorem read_path_checks_witness :
    rdr.read fsNoDir = .error (.notADirectory rdr.path) ∧
    rdr.read fsDirNoFile =
      .error (.fileNotFound (joinPath rdr.path rdr.include_file)) :=
  read_path_checks fsNoDir fsDirNoFile rdr rfl rfl rfl

/-- Definitional unfolding of `get_file_list` on a YAML list. -/
theorem get_file_list_list (fs : FS) (path : String) (entries : List Yaml) :
    ConfigReader.get_file_list fs path (.list entries) =
      match ConfigReader.filesLoop fs path entries (.list []) [] with
      | .error e => .error e
      | .ok (globs_to_zip, file_list) =>
        match pyIter globs_to_zip with
        | .error e => .error e
        | .ok zentries =>
          match ConfigReader.zipLoop fs path zentries [] with
          | .error e => .error e
          | .ok zip_file_list => .ok (file_list, zip_file_list) := rfl

/-- A zip-shaped entry at the head of the entry loop replaces
`globs_to_zip` with the value under `"zip"` and continues. -/
theorem filesLoop_zip_cons (fs : FS) (path : String)
    (kvs : List (String × Yaml)) (v : Yaml) (rest : List Yaml) (gz : Yaml)
    (fl : List String) (h : kvs.lookup "zip" = some v) :
    ConfigReader.filesLoop fs path (.map kvs :: rest) gz fl =
      ConfigReader.filesLoop fs path rest v fl := by
  simp [ConfigReader.filesLoop, h]

/-- Assembling a successful `get_file_list` run from its three stages. -/
theorem get_file_list_ok (fs : FS) (path : String) (entries zs : List Yaml)
    (gz : Yaml) (fl zl : List String)
    (h1 : ConfigReader.filesLoop fs path entries (.list []) [] = .ok (gz, fl))
    (h2 : pyIter gz = .ok zs)
    (h3 : ConfigReader.zipLoop fs path zs [] = .ok zl) :
    ConfigReader.get_file_list fs path (.list entries) = .ok (fl, zl) := by
  rw [get_file_list_list, h1]
  dsimp only
  rw [h2]
  dsimp only
  rw [h3]

/-- A zip-shaped entry with the singleton `"zip"` binding at the head of
the entry loop. -/
theorem filesLoop_zip_single_cons (fs : FS) (path : String) (v : Yaml)
    (rest : List Yaml) (gz : Yaml) (fl : List String) :
    ConfigReader.filesLoop fs path (.map [("zip", v)] :: rest) gz fl =
      ConfigReader.filesLoop fs path rest v fl := by
  simp [ConfigReader.filesLoop, List.lookup]

/-- **C4.** For every valid configuration the file list is resolved by
iterating the declared entries in order: each string entry is glob-expanded
against the base directory and its matches appended to the direct list, and
a mapping entry with key `"zip"` supplies patterns glob-expanded separately
into the zip list; in particular
`files: ["a/*.txt", {zip: ["b/*.py"]}]` over `a/1.txt`, `a/2.txt`, `b/x.py`
yields direct list `[a/1.txt, a/2.txt]` and zip list `[b/x.py]`. -/
theorem get_file_list_resolution (fs : FS) (path : String)
    (strs1 strs2 zpats : List String) :
    (ConfigReader.get_file_list fs path
      (.list (strs1.map .str ++
        .map [("zip", .list (zpats.map .str))] :: strs2.map .str)) =
      .ok (((strs1 ++ strs2).map (fun s => fs.globMatch (joinPath path s))).flatten,
           (zpats.map (fun s => fs.globMatch (joinPath path s))).flatten)) ∧
    ConfigReader.get_file_list fsEx "dir"
      (.list [.str "a/*.txt", .map [("zip", .list [.str "b/*.py"])]]) =
      .ok (["dir/a/1.txt", "dir/a/2.txt"], ["dir/b/x.py"]) := by
  constructor
  · apply get_file_list_ok fs path _ (zpats.map .str) (.list (zpats.map .str))
    · rw [filesLoop_append, filesLoop_strings]
      dsimp only
      rw [filesLoop_zip_single_cons, filesLoop_strings]
      simp [List.map_append]
    · rfl
    · rw [zipLoop_strings]
      simp
  · decide

/-- **C5.** Any file list containing an entry that is neither a string nor
a zip-mapping makes `_get_file_list` raise the invalid-file-list
`ValueError`, and any zip pattern list containing a non-string makes it
raise the invalid-zip-list `ValueError`; the reader embedding issues no
network events at all, so this precedes any network activity. -/
theorem invalid_entries_rejected (fs : FS) (path : String)
    (entries zs : List Yaml) (strs : List String)
    (h1 : ∃ e ∈ entries, entryInvalid e = true)
    (h2 : ∃ z ∈ zs, z.isStr = false) :
    ConfigReader.get_file_list fs path (.list entries) =
      .error .invalidFileListEntry ∧
    ConfigReader.get_file_list fs path
      (.list (strs.map .str ++ [.map [("zip", .list zs)]])) =
      .error .invalidZipListEntry := by
  constructor
  · rw [get_file_list_list, filesLoop_invalid fs path entries _ _ h1]
  · rw [get_file_list_list, filesLoop_append, filesLoop_strings]
    dsimp only
    rw [filesLoop_zip_single_cons]
    dsimp only [ConfigReader.filesLoop, pyIter]
    rw [zipLoop_invalid fs path zs _ h2]

/-- **C5 witness**: an integer entry in the file list and an integer in a
zip pattern list. -/
theorem invalid_entries_rejected_witness :
    ConfigReader.get_file_list fsAll "dir" (.list [.int 3]) =
      .error .invalidFileListEntry ∧
    ConfigReader.get_file_list fsAll "dir"
      (.list (["g"].map .str ++ [.map [("zip", .list [.int 7])]])) =
      .error .invalidZipListEntry :=
  invalid_entries_rejected fsAll "dir" [.int 3] [.int 7] ["g"]
    (by decide) (by decide)

/-- **C6.** When two zip-shaped mapping entries appear, the returned zip
file list is the expansion of the patterns of the last one only; the
earlier zip entry is silently discarded (here its value `z1` is arbitrary —
it is never even inspected). -/
theorem last_zip_group_wins (fs : FS) (path : String) (z1 : Yaml)
    (zpats strs1 strs2 strs3 : List String) :
    ConfigReader.get_file_list fs path
      (.list (strs1.map .str ++ .map [("zip", z1)] ::
        (strs2.map .str ++ .map [("zip", .list (zpats.map .str))] ::
          strs3.map .str))) =
      .ok (((strs1 ++ strs2 ++ strs3).map
              (fun s => fs.globMatch (joinPath path s))).flatten,
           (zpats.map (fun s => fs.globMatch (joinPath path s))).flatten) := by
  apply get_file_list_ok fs path _ (zpats.map .str) (.list (zpats.map .str))
  · rw [filesLoop_append, filesLoop_strings]
    dsimp only
    rw [filesLoop_zip_single_cons, filesLoop_append, filesLoop_strings]
    dsimp only
    rw [filesLoop_zip_single_cons, filesLoop_strings]
    simp [List.map_append]
  · rfl
  · rw [zipLoop_strings]
    simp

/-- **C8.** A mapping entry containing the key `"zip"` is accepted as a zip
group even when the mapping has additional keys; only the value under
`"zip"` is used. -/
theorem zip_entry_extra_keys_accepted (fs : FS) (path : String)
    (kvs : List (String × Yaml)) (zpats : List String)
    (h : kvs.lookup "zip" = some (.list (zpats.map .str))) :
    ConfigReader.get_file_list fs path (.list [.map kvs]) =
      .ok ([], (zpats.map (fun s => fs.globMatch (joinPath path s))).flatten) := by
  apply get_file_list_ok fs path _ (zpats.map .str) (.list (zpats.map .str))
  · rw [filesLoop_zip_cons fs path _ _ _ _ _ h]
    rfl
  · rfl
  · rw [zipLoop_strings]
    simp

/-- **C8 witness**: a three-key mapping whose middle binding is `"zip"`. -/
theorem zip_entry_extra_keys_accepted_witness :
    ConfigReader.get_file_list fsEx "dir"
      (.list [.map [("alpha", .int 1), ("zip", .list (["b/*.py"].map .str)),
        ("beta", .int 2)]]) =
      .ok ([], (["b/*.py"].map
        (fun s => fsEx.globMatch (joinPath "dir" s))).flatten) :=
  zip_entry_extra_keys_accepted fsEx "dir"
    [("alpha", .int 1), ("zip", .list (["b/*.py"].map .str)), ("beta", .int 2)]
    ["b/*.py"] rfl

/-- **C9.** A glob pattern matching no files contributes nothing to the
resolved lists, and when the resolved direct-upload list is empty,
`submit()` performs zero uploads and still issues one submission call whose
`file_ids` is the empty list. -/
theorem empty_glob_and_empty_submit (fs : FS) (o : UploadOracle)
    (a : CanvasAssignment) (path s : String) (strs1 strs2 : List String)
    (hglob : fs.globMatch (joinPath path s) = [])
    (hempty : a.file_list = []) :
    ConfigReader.get_file_list fs path (.list ((strs1 ++ s :: strs2).map .str)) =
      ConfigReader.get_file_list fs path (.list ((strs1 ++ strs2).map .str)) ∧
    a.submit fs o =
      ([.getAssignmentCall a.course_id a.assignment_id,
        .submitCall { file_ids := [], submission_type := "online_upload" }],
       .ok { file_ids := [], submission_type := "online_upload" }) := by
  constructor
  · rw [get_file_list_ok fs path _ [] (.list []) _ []
        (filesLoop_strings fs path _ _ _) rfl rfl,
      get_file_list_ok fs path _ [] (.list []) _ []
        (filesLoop_strings fs path _ _ _) rfl rfl]
    simp [hglob]
  · have h : a.uploadLoop fs o a.file_list [] [] = ([], .ok []) := by
      rw [hempty]
      rfl
    unfold CanvasAssignment.submit
    rw [h]
    simp

/-- **C9 witness**: an everywhere-empty glob and an empty file list. -/
theorem empty_glob_and_empty_submit_witness :
    ConfigReader.get_file_list fsAll "dir" (.list ((([] : List String) ++ "g" :: []).map .str)) =
      ConfigReader.get_file_list fsAll "dir" (.list ((([] : List String) ++ []).map .str)) ∧
    asgnEmpty.submit fsAll oracleOk =
      ([.getAssignmentCall asgnEmpty.course_id asgnEmpty.assignment_id,
        .submitCall { file_ids := [], submission_type := "online_upload" }],
       .ok { file_ids := [], submission_type := "online_upload" }) :=
  empty_glob_and_empty_submit fsAll oracleOk asgnEmpty "dir" "g" [] [] rfl rfl

/-- **C10.** `upload_file_to_assignment` raises `ValueError` (with no
network call issued) whenever its path argument does not name an existing
regular file, so `submit()` on a resolved path that is missing (or a
directory) aborts without contacting the upload endpoint for that file:
the trace covers only the earlier files. -/
theorem upload_requires_regular_file (fs : FS) (o : UploadOracle)
    (a : CanvasAssignment) (l₁ : List String) (p : String) (l₂ : List String)
    (hfl : a.file_list = l₁ ++ p :: l₂)
    (h1 : ∀ q ∈ l₁, fs.isFile q = true ∧
      (o.res (upload_url a.course_id a.assignment_id a.user_id) q).1 = true)
    (h2 : fs.isFile p = false) :
    upload_file_to_assignment fs o a.course_id a.assignment_id a.user_id p =
      .error (.pathNotAFile p) ∧
    (a.submit fs o).1 = l₁.map (fun q =>
      NetEvent.uploadCall (upload_url a.course_id a.assignment_id a.user_id) q) ∧
    (a.submit fs o).2 = .error (.pathNotAFile p) := by
  have h := uploadLoop_missing_file a fs o l₁ p l₂ [] [] h1 h2
  have key : a.submit fs o = (l₁.map (fun q =>
      NetEvent.uploadCall (upload_url a.course_id a.assignment_id a.user_id) q),
      .error (.pathNotAFile p)) := by
    unfold CanvasAssignment.submit
    rw [hfl, h]
    simp
  refine ⟨?_, by rw [key], by rw [key]⟩
  simp [upload_file_to_assignment, h2]

/-- **C10 witness**: `"f2"` disappeared after resolution; the run aborts
after uploading only `"f1"`. -/
theorem upload_requires_regular_file_witness :
    upload_file_to_assignment fsOnlyF1 oracleOk asgn1.course_id
      asgn1.assignment_id asgn1.user_id "f2" = .error (.pathNotAFile "f2") ∧
    (asgn1.submit fsOnlyF1 oracleOk).1 = (["f1"] : List String).map (fun q =>
      NetEvent.uploadCall
        (upload_url asgn1.course_id asgn1.assignment_id asgn1.user_id) q) ∧
    (asgn1.submit fsOnlyF1 oracleOk).2 = .error (.pathNotAFile "f2") :=
  upload_requires_regular_file fsOnlyF1 oracleOk asgn1 ["f1"] "f2" []
    (by decide) (by decide) (by decide)
